import Mathlib

/-!
Verification of crates/notion-core/src/distro/mod.rs: the Fetched result
type, the Distro fetch contract, and the download_tool_error classifier.
-/

namespace Volta

/-- A semantic version (semver::Version): major.minor.patch plus optional
pre-release and build metadata; equal only when all components match. -/
structure Version where
  major : Nat
  minor : Nat
  patch : Nat
  pre : List String
  build : List String
deriving DecidableEq

/-- crate::tool::ToolSpec: identifies a requested tool and version pair,
used purely as error-reporting context. -/
structure ToolSpec where
  tool : String
  spec : String
deriving DecidableEq

/-- reqwest::StatusCode::NOT_FOUND, i.e. HTTP 404. -/
def NOT_FOUND : Nat := 404

/-- archive::HttpError: a structured transport error carrying a status code. -/
structure HttpError where
  code : Nat
deriving DecidableEq

/-- A failure::Error value: an opaque dynamic error. downcast_ref to
archive::HttpError may expose a structured transport error (field
downcastHttp), and to_string gives its Display rendering (field display). -/
structure FailureError where
  downcastHttp : Option HttpError
  display : String
deriving DecidableEq

/-- The variants of crate::error::ErrorDetails produced by this module.
The real enum has further variants, produced elsewhere; OtherVariant
stands in for those. -/
inductive ErrorDetails where
  | DownloadToolNotFound (tool : ToolSpec)
  | DownloadToolNetworkError (tool : ToolSpec) (error : String) (from_url : String)
  | OtherVariant (tag : String)
deriving DecidableEq

/-- The result of a requested installation. -/
inductive Fetched (V : Type) where
  /-- Indicates that the given tool was already installed. -/
  | Already (version : V)
  /-- Indicates that the given tool was not already installed but has now
  been installed. -/
  | Now (version : V)
deriving DecidableEq

/-- Consumes this value and produces the installed version. -/
def Fetched.into_version {V : Type} : Fetched V → V
  | .Already version | .Now version => version

/-- Produces a reference to the installed version. -/
def Fetched.version {V : Type} : Fetched V → V
  | .Already version | .Now version => version

/-- fn download_tool_error(toolspec, from_url) -> impl FnOnce(&failure::Error)
-> ErrorDetails. The closure downcasts the error to archive::HttpError; a
status of StatusCode::NOT_FOUND yields DownloadToolNotFound, any other
downcast outcome (Some with another code, or None) yields
DownloadToolNetworkError with the stringified error and the source URL. -/
def download_tool_error (toolspec : ToolSpec) (from_url : String) :
    FailureError → ErrorDetails :=
  fun error =>
    match error.downcastHttp with
    | some he =>
        if he.code = NOT_FOUND then
          ErrorDetails.DownloadToolNotFound toolspec
        else
          ErrorDetails.DownloadToolNetworkError toolspec error.display from_url
    | none =>
        ErrorDetails.DownloadToolNetworkError toolspec error.display from_url

/-- Recognizer for the DownloadToolNotFound variant. -/
def ErrorDetails.isDownloadToolNotFound : ErrorDetails → Bool
  | .DownloadToolNotFound _ => true
  | _ => false

/-- Recognizer for the DownloadToolNetworkError variant. -/
def ErrorDetails.isDownloadToolNetworkError : ErrorDetails → Bool
  | .DownloadToolNetworkError _ _ _ => true
  | _ => false

/-- The tool identity carried by a classified error, when present. -/
def ErrorDetails.toolOf : ErrorDetails → Option ToolSpec
  | .DownloadToolNotFound tool => some tool
  | .DownloadToolNetworkError tool _ _ => some tool
  | .OtherVariant _ => none

/-- The source URL carried by a classified error, when present. -/
def ErrorDetails.fromUrlOf : ErrorDetails → Option String
  | .DownloadToolNetworkError _ _ from_url => some from_url
  | _ => none

/-- Modelled from the spec: crate::inventory::Collection (its source file is
not among the visible sources; only the trait surface here consumes it).
The authoritative record of installed versions of one tool kind, each with
its VersionDetails payload. -/
structure Collection (V : Type) where
  entries : List (Version × V)
deriving DecidableEq

/-- Modelled from the spec: look up the details recorded for an exactly
matching installed version. -/
def Collection.lookup {V : Type} (c : Collection V) (v : Version) : Option V :=
  (c.entries.find? (fun e => e.1 = v)).map Prod.snd

/-- Modelled from the spec: whether the Collection reports the version as
present (installed and complete). -/
def Collection.contains {V : Type} (c : Collection V) (v : Version) : Bool :=
  (c.lookup v).isSome

/-- Modelled from the spec: record a newly installed version with its
details. -/
def Collection.record {V : Type} (c : Collection V) (v : Version) (d : V) :
    Collection V :=
  ⟨(v, d) :: c.entries⟩

/-- Modelled from the spec: the Distro::fetch contract of section 4.1. The
concrete implementations (distro/node.rs, distro/yarn.rs) are not among the
visible sources, so the contract is modelled: query the collection for an
exact match; if present return Fetched.Already with no provisioning work;
if absent perform the provenance-specific provisioning side effect
(abstracted as the provision argument), record the install in the
collection on success and return Fetched.Now, or classify the failure with
download_tool_error and leave the collection unmodified. The Nat component
of the result counts provisioning attempts, each standing for the network
and disk-write work of one attempt. -/
def Distro.fetch {V : Type} (toolspec : ToolSpec) (from_url : String)
    (v : Version) (provision : Version → Except FailureError V)
    (collection : Collection V) :
    Except ErrorDetails (Fetched V) × Collection V × Nat :=
  match collection.lookup v with
  | some details => (Except.ok (Fetched.Already details), collection, 0)
  | none =>
      match provision v with
      | Except.ok details =>
          (Except.ok (Fetched.Now details), collection.record v details, 1)
      | Except.error err =>
          (Except.error (download_tool_error toolspec from_url err),
            collection, 1)

/-! Helper lemmas shared by the claim theorems. -/

/-- Case analysis of the classifier: a 404 downcast yields
DownloadToolNotFound, every other downcast outcome yields
DownloadToolNetworkError. -/
theorem download_tool_error_cases (toolspec : ToolSpec) (from_url : String)
    (error : FailureError) :
    (∃ he, error.downcastHttp = some he ∧ he.code = NOT_FOUND ∧
      download_tool_error toolspec from_url error =
        ErrorDetails.DownloadToolNotFound toolspec) ∨
    ((error.downcastHttp = none ∨
        ∃ he, error.downcastHttp = some he ∧ he.code ≠ NOT_FOUND) ∧
      download_tool_error toolspec from_url error =
        ErrorDetails.DownloadToolNetworkError toolspec error.display from_url) := by
  unfold download_tool_error
  rcases h : error.downcastHttp with _ | he
  · exact Or.inr ⟨Or.inl rfl, rfl⟩
  · by_cases hc : he.code = NOT_FOUND
    · exact Or.inl ⟨he, rfl, hc, by simp [hc]⟩
    · exact Or.inr ⟨Or.inr ⟨he, rfl, hc⟩, by simp [hc]⟩

/-- A freshly recorded version is reported present by the Collection. -/
theorem Collection.contains_record {V : Type} (c : Collection V) (v : Version)
    (d : V) : (c.record v d).contains v = true := by
  simp [Collection.contains, Collection.lookup, Collection.record]

/-! Claim theorems. -/

/-- C1: for every version already present (and verified complete) in the
Collection, fetch returns Fetched.Already with zero provisioning work:
no network or disk-write side effects, and the Collection unchanged. -/
theorem fetch_already_no_work {V : Type} (toolspec : ToolSpec)
    (from_url : String) (v : Version)
    (provision : Version → Except FailureError V) (collection : Collection V)
    (details : V) (h : collection.lookup v = some details) :
    Distro.fetch toolspec from_url v provision collection =
      (Except.ok (Fetched.Already details), collection, 0) := by
  unfold Distro.fetch
  rw [h]

/-- Witness for C1 at a concrete installed version; the provisioner would
fail if it were ever invoked. -/
theorem fetch_already_no_work_witness :
    (Collection.mk [(⟨10, 0, 0, [], []⟩, "node-10-details")] :
        Collection String).lookup ⟨10, 0, 0, [], []⟩ = some "node-10-details" ∧
    Distro.fetch ⟨"node", "10.0.0"⟩ "https://nodejs.org" ⟨10, 0, 0, [], []⟩
        (fun _ => Except.error ⟨none, "offline"⟩)
        (Collection.mk [(⟨10, 0, 0, [], []⟩, "node-10-details")]) =
      (Except.ok (Fetched.Already "node-10-details"),
        Collection.mk [(⟨10, 0, 0, [], []⟩, "node-10-details")], 0) :=
  ⟨by decide, fetch_already_no_work _ _ _ _ _ _ (by decide)⟩

/-- C2: for every version absent from the Collection, fetch performs
exactly one provisioning attempt and, when provisioning succeeds, returns
Fetched.Now and the Collection subsequently reports the version present. -/
theorem fetch_absent_provisions_once {V : Type} (toolspec : ToolSpec)
    (from_url : String) (v : Version)
    (provision : Version → Except FailureError V) (collection : Collection V)
    (details : V) (habsent : collection.lookup v = none)
    (hok : provision v = Except.ok details) :
    Distro.fetch toolspec from_url v provision collection =
      (Except.ok (Fetched.Now details), collection.record v details, 1) ∧
    (collection.record v details).contains v = true := by
  unfold Distro.fetch
  rw [habsent, hok]
  exact ⟨rfl, Collection.contains_record collection v details⟩

/-- Witness for C2 at a concrete absent version with a succeeding
provisioner. -/
theorem fetch_absent_provisions_once_witness :
    (Collection.mk [] : Collection String).lookup ⟨16, 2, 0, [], []⟩ = none ∧
    Distro.fetch ⟨"node", "16.2.0"⟩ "https://nodejs.org" ⟨16, 2, 0, [], []⟩
        (fun _ => Except.ok "node-16-details") (Collection.mk []) =
      (Except.ok (Fetched.Now "node-16-details"),
        (Collection.mk [] : Collection String).record ⟨16, 2, 0, [], []⟩
          "node-16-details", 1) ∧
    ((Collection.mk [] : Collection String).record ⟨16, 2, 0, [], []⟩
        "node-16-details").contains ⟨16, 2, 0, [], []⟩ = true :=
  ⟨by decide, fetch_absent_provisions_once _ _ _ _ _ _ (by decide) rfl⟩

/-- C3: when provisioning fails, fetch surfaces the failure classified by
download_tool_error, still one provisioning attempt, and the Collection is
left unmodified — it does not report the version as present. -/
theorem fetch_failure_classified_not_recorded {V : Type} (toolspec : ToolSpec)
    (from_url : String) (v : Version)
    (provision : Version → Except FailureError V) (collection : Collection V)
    (err : FailureError) (habsent : collection.lookup v = none)
    (hfail : provision v = Except.error err) :
    Distro.fetch toolspec from_url v provision collection =
      (Except.error (download_tool_error toolspec from_url err),
        collection, 1) ∧
    collection.contains v = false := by
  unfold Distro.fetch
  rw [habsent, hfail]
  exact ⟨rfl, by simp [Collection.contains, habsent]⟩

/-- Witness for C3 at a concrete absent version with a failing
provisioner. -/
theorem fetch_failure_classified_not_recorded_witness :
    (Collection.mk [] : Collection String).lookup ⟨16, 2, 0, [], []⟩ = none ∧
    (fun _ => Except.error ⟨some ⟨500⟩, "server fault"⟩ :
        Version → Except FailureError String) ⟨16, 2, 0, [], []⟩ =
      Except.error ⟨some ⟨500⟩, "server fault"⟩ ∧
    Distro.fetch ⟨"node", "16.2.0"⟩ "https://nodejs.org" ⟨16, 2, 0, [], []⟩
        (fun _ => (Except.error ⟨some ⟨500⟩, "server fault"⟩ :
          Except FailureError String))
        (Collection.mk []) =
      (Except.error (download_tool_error ⟨"node", "16.2.0"⟩
          "https://nodejs.org" ⟨some ⟨500⟩, "server fault"⟩),
        Collection.mk [], 1) ∧
    (Collection.mk [] : Collection String).contains ⟨16, 2, 0, [], []⟩ =
      false :=
  ⟨by decide, rfl,
    fetch_failure_classified_not_recorded _ _ _ _ _ _ (by decide) rfl⟩

/-- C4: the Fetched accessors are tag-agnostic — into_version and version
return the payload for both the Already and the Now variant. -/
theorem fetched_accessors_tag_agnostic (V : Type) (x : V) :
    (Fetched.Already x).into_version = x ∧ (Fetched.Now x).into_version = x ∧
    (Fetched.Already x).version = x ∧ (Fetched.Now x).version = x :=
  ⟨rfl, rfl, rfl, rfl⟩

/-- C5: every transport error whose downcast exposes a NOT_FOUND (404)
status is classified as DownloadToolNotFound with the original ToolSpec
intact. -/
theorem classify_not_found (toolspec : ToolSpec) (from_url : String)
    (error : FailureError)
    (h : error.downcastHttp = some ⟨NOT_FOUND⟩) :
    download_tool_error toolspec from_url error =
      ErrorDetails.DownloadToolNotFound toolspec := by
  unfold download_tool_error
  rw [h]
  simp

/-- Witness for C5 at a concrete 404 transport error. -/
theorem classify_not_found_witness :
    (FailureError.mk (some ⟨404⟩) "HTTP 404").downcastHttp =
      some ⟨NOT_FOUND⟩ ∧
    download_tool_error ⟨"node", "999.0.0"⟩ "https://nodejs.org"
        ⟨some ⟨404⟩, "HTTP 404"⟩ =
      ErrorDetails.DownloadToolNotFound ⟨"node", "999.0.0"⟩ :=
  ⟨rfl, classify_not_found _ _ _ rfl⟩

/-- C6: every transport failure that is not a 404 — a structured transport
error with another status, or an error that does not downcast to a
structured transport error at all — is classified as
DownloadToolNetworkError carrying the tool identity, the stringified
underlying error verbatim, and the source URL. -/
theorem classify_network (toolspec : ToolSpec) (from_url : String)
    (error : FailureError)
    (h : error.downcastHttp = none ∨
      ∃ he, error.downcastHttp = some he ∧ he.code ≠ NOT_FOUND) :
    download_tool_error toolspec from_url error =
      ErrorDetails.DownloadToolNetworkError toolspec error.display from_url := by
  rcases download_tool_error_cases toolspec from_url error with
    ⟨he, hsome, hcode, _⟩ | ⟨_, hres⟩
  · rcases h with h | ⟨he₂, hsome₂, hcode₂⟩
    · rw [h] at hsome
      exact Option.noConfusion hsome
    · rw [hsome] at hsome₂
      obtain rfl := Option.some.inj hsome₂
      exact absurd hcode hcode₂
  · exact hres

/-- Witness for C6 at a concrete HTTP 500 transport error. -/
theorem classify_network_witness :
    ((FailureError.mk (some ⟨500⟩) "internal server error").downcastHttp =
        none ∨
      ∃ he, (FailureError.mk (some ⟨500⟩)
          "internal server error").downcastHttp = some he ∧
        he.code ≠ NOT_FOUND) ∧
    download_tool_error ⟨"node", "10.0.0"⟩ "https://nodejs.org"
        ⟨some ⟨500⟩, "internal server error"⟩ =
      ErrorDetails.DownloadToolNetworkError ⟨"node", "10.0.0"⟩
        "internal server error" "https://nodejs.org" :=
  ⟨Or.inr ⟨⟨500⟩, rfl, by decide⟩,
    classify_network _ _ _ (Or.inr ⟨⟨500⟩, rfl, by decide⟩)⟩

/-- C7: the classifier is total and exclusive — every input is mapped to
exactly one of DownloadToolNotFound and DownloadToolNetworkError, never
neither, both, or any other variant. -/
theorem classify_total_exclusive (toolspec : ToolSpec) (from_url : String)
    (error : FailureError) :
    ((download_tool_error toolspec from_url error).isDownloadToolNotFound =
        true ∧
      (download_tool_error toolspec from_url
          error).isDownloadToolNetworkError = false) ∨
    ((download_tool_error toolspec from_url error).isDownloadToolNotFound =
        false ∧
      (download_tool_error toolspec from_url
          error).isDownloadToolNetworkError = true) := by
  rcases download_tool_error_cases toolspec from_url error with
    ⟨_, _, _, hres⟩ | ⟨_, hres⟩
  · exact Or.inl (by rw [hres]; exact ⟨rfl, rfl⟩)
  · exact Or.inr (by rw [hres]; exact ⟨rfl, rfl⟩)

/-- C8 counterexample: the DownloadToolNotFound classification does not
carry the source URL — two classifications of the same 404 error under
different source URLs yield the identical result, and the result has no
URL field. -/
theorem classify_not_found_drops_url :
    download_tool_error ⟨"node", "10.0.0"⟩ "https://host-a.example"
        ⟨some ⟨404⟩, "HTTP 404"⟩ =
      download_tool_error ⟨"node", "10.0.0"⟩ "https://host-b.example"
        ⟨some ⟨404⟩, "HTTP 404"⟩ ∧
    "https://host-a.example" ≠ "https://host-b.example" ∧
    (download_tool_error ⟨"node", "10.0.0"⟩ "https://host-a.example"
        ⟨some ⟨404⟩, "HTTP 404"⟩).fromUrlOf = none := by
  decide

/-- C8 amended: every classified error carries the tool identity; the
source URL is carried exactly in the DownloadToolNetworkError case, while
DownloadToolNotFound carries only the tool. -/
theorem classify_carries_tool_url_in_network_only (toolspec : ToolSpec)
    (from_url : String) (error : FailureError) :
    (download_tool_error toolspec from_url error).toolOf = some toolspec ∧
    (download_tool_error toolspec from_url error).fromUrlOf =
      cond (download_tool_error toolspec from_url
        error).isDownloadToolNetworkError (some from_url) none := by
  rcases download_tool_error_cases toolspec from_url error with
    ⟨_, _, _, hres⟩ | ⟨_, hres⟩ <;>
  · rw [hres]
    exact ⟨rfl, rfl⟩

/-- C9: classification is a deterministic function of the error value, the
ToolSpec and the source URL — equal inputs give equal classifications (and
the embedding is a total pure function, so classification itself performs
no side effects). -/
theorem classify_deterministic (t₁ t₂ : ToolSpec) (u₁ u₂ : String)
    (e₁ e₂ : FailureError) (ht : t₁ = t₂) (hu : u₁ = u₂) (he : e₁ = e₂) :
    download_tool_error t₁ u₁ e₁ = download_tool_error t₂ u₂ e₂ := by
  rw [ht, hu, he]

/-- Witness for C9 at a concrete repeated classification. -/
theorem classify_deterministic_witness :
    download_tool_error ⟨"node", "10.0.0"⟩ "https://nodejs.org"
        ⟨none, "connection reset"⟩ =
      download_tool_error ⟨"node", "10.0.0"⟩ "https://nodejs.org"
        ⟨none, "connection reset"⟩ :=
  classify_deterministic _ _ _ _ _ _ rfl rfl rfl

/-- C10: the chosen variant depends only on the error value, never on the
ToolSpec or the source URL: under any two contexts the same error is
classified into the same variant, and the context is passed through into
the fields of the result unchanged. -/
theorem classify_variant_independent_of_context (t₁ t₂ : ToolSpec)
    (u₁ u₂ : String) (e : FailureError) :
    (download_tool_error t₁ u₁ e = ErrorDetails.DownloadToolNotFound t₁ ∧
      download_tool_error t₂ u₂ e = ErrorDetails.DownloadToolNotFound t₂) ∨
    (download_tool_error t₁ u₁ e =
        ErrorDetails.DownloadToolNetworkError t₁ e.display u₁ ∧
      download_tool_error t₂ u₂ e =
        ErrorDetails.DownloadToolNetworkError t₂ e.display u₂) := by
  rcases download_tool_error_cases t₁ u₁ e with
    ⟨he, hsome, hcode, h₁⟩ | ⟨hother, h₁⟩
  · left
    refine ⟨h₁, ?_⟩
    rcases download_tool_error_cases t₂ u₂ e with
      ⟨_, _, _, h₂⟩ | ⟨hother₂, h₂⟩
    · exact h₂
    · rcases hother₂ with hnone | ⟨he₂, hsome₂, hcode₂⟩
      · rw [hnone] at hsome
        exact Option.noConfusion hsome
      · rw [hsome] at hsome₂
        obtain rfl := Option.some.inj hsome₂
        exact absurd hcode hcode₂
  · right
    refine ⟨h₁, ?_⟩
    rcases download_tool_error_cases t₂ u₂ e with
      ⟨he₂, hsome₂, hcode₂, h₂⟩ | ⟨_, h₂⟩
    · rcases hother with hnone | ⟨he₁, hsome₁, hcode₁⟩
      · rw [hnone] at hsome₂
        exact Option.noConfusion hsome₂
      · rw [hsome₁] at hsome₂
        obtain rfl := Option.some.inj hsome₂
        exact absurd hcode₂ hcode₁
    · exact h₂

end Volta
